import Mathlib

/-!
Shallow embedding of the realtime WebSocket connection manager of the
`aeiouly-be` integration-test app (`WebSocketProvider` in
`src/unnamed/part_005`, whose `connect` / `onopen` / `onmessage` /
`onerror` / `onclose` / `disconnect` / `sendMessage` / `addLog` bodies
are identical to `src/integration-test-app/src/contexts/WebSocketContext.tsx`,
plus the mount-time auth probe `checkAuthAndConnect`, the `auth:changed`
listener `handleAuthChanged` and the `visibilitychange` listener
`handleVisibilityChange` that only `part_005` has).

The runtime is the single-threaded browser event loop: every transport
callback, timer callback, DOM event listener and user action runs as one
non-preemptible turn.  We model a turn as a total function `World → World`
and an execution as a `List Event` folded over `step`.  `step` delivers an
event only when the browser could actually deliver it (e.g. an `open`
callback only fires on a socket that is still `CONNECTING`); an event that
cannot be delivered leaves the world unchanged.

Mutable pieces of the component and their embedding:
- `connected`, `logs`, `autoConnect` (React `useState`)  → record fields;
- `wsRef` (`useRef<WebSocket>`)                          → `Option Nat`, the id of
  the socket currently stored in the ref; socket ids increase by one per
  `new WebSocket(url)`, so they double as the "generation" of the attempt;
- `reconnectTimeoutRef` (`useRef<number>`)               → `Option Nat` holding the
  id of the last timer handed to `setTimeout`; the separate `pending` list
  holds every timer id that is scheduled, unfired and uncancelled
  (`setTimeout` adds, `clearTimeout` and firing remove);
- each socket's `readyState`                             → `sockets : Nat → Option ReadyState`;
- `ws.send(message)`                                     → appended to `sent`;
- wall-clock time (`new Date()`)                         → a `clock : Nat` that only
  the environment advances (`Event.tick`), so it is non-decreasing, as
  physical time is;
- `authStatus` and `probed` are ghost fields recording what the auth
  collaborator has reported so far; no handler branches on them.
-/

namespace AeWS

/-- The four readyState values of a browser WebSocket
(`WebSocket.CONNECTING/OPEN/CLOSING/CLOSED`). -/
inductive ReadyState
  | CONNECTING
  | OPEN
  | CLOSING
  | CLOSED
  deriving DecidableEq, Repr

/-- The auth status last observed from the external auth collaborator
(spec data model `AuthState`); a failed probe is observed as logged out. -/
inductive AuthState
  | unknown
  | loggedIn
  | loggedOut
  deriving DecidableEq, Repr

/-- Payload of a `window` `auth:changed` `CustomEvent`: the code matches
`detail?.status === 'logged_out'`, then `'logged_in'`, and has a fallback
branch for any other detail. -/
inductive AuthSignal
  | loggedIn
  | loggedOut
  | other
  deriving DecidableEq, Repr

/-- One line of the log buffer: the wall-clock timestamp taken by `addLog`
and the rendered text (the source renders `[timestamp] line`). -/
structure LogEntry where
  timestamp : Nat
  text : String
  deriving DecidableEq, Repr

/-- `addLog` renders the line as `[timestamp] line`. -/
def logLine (ts : Nat) (line : String) : String :=
  "[" ++ Nat.repr ts ++ "] " ++ line

/-- The entry `addLog` appends at wall-clock time `ts`. -/
def logAt (ts : Nat) (line : String) : LogEntry :=
  { timestamp := ts, text := logLine ts line }

@[simp] theorem logAt_timestamp (ts : Nat) (line : String) : (logAt ts line).timestamp = ts :=
  rfl

/-- The whole mutable state of one `WebSocketProvider` instance together
with the sockets and timers it has created. -/
structure World where
  connected : Bool
  logs : List LogEntry
  wsRef : Option Nat
  sockets : Nat → Option ReadyState
  nextSock : Nat
  timerRef : Option Nat
  pending : List Nat
  nextTimer : Nat
  autoConnect : Bool
  authStatus : AuthState
  probed : Bool
  sent : List (Nat × String)
  clock : Nat

/-- The provider right after mount: no socket, no timer, empty log,
`connected=false`, `autoConnect=false` (the `useState(false)` initial
value in `part_005`), auth not yet probed. -/
def init : World :=
  { connected := false
    logs := []
    wsRef := none
    sockets := fun _ => none
    nextSock := 0
    timerRef := none
    pending := []
    nextTimer := 0
    autoConnect := false
    authStatus := AuthState.unknown
    probed := false
    sent := []
    clock := 0 }

/-- `addLog(line)`: timestamp the line and append it at the tail of `logs`
(`setLogs(prev => [...prev, `[ts] line`])`). -/
def addLog (line : String) (w : World) : World :=
  { w with logs := w.logs ++ [logAt w.clock line] }

/-- The guard at the top of `connect`:
`wsRef.current && (readyState === OPEN || readyState === CONNECTING)`. -/
def isLive (w : World) : Bool :=
  match w.wsRef with
  | some sid =>
    match w.sockets sid with
    | some ReadyState.OPEN => true
    | some ReadyState.CONNECTING => true
    | _ => false
  | none => false

/-- `connect()`: return immediately if the current socket is OPEN or
CONNECTING, otherwise create a fresh `WebSocket` (readyState CONNECTING)
and store it in `wsRef.current`. -/
def connect (w : World) : World :=
  if isLive w then w
  else
    { w with
      sockets := fun s => if s = w.nextSock then some ReadyState.CONNECTING else w.sockets s
      wsRef := some w.nextSock
      nextSock := w.nextSock + 1 }

/-- The `if (reconnectTimeoutRef.current) { clearTimeout(...); ... = null }`
motif used by `ws.onopen` and `disconnect`. -/
def clearReconnectTimeout (w : World) : World :=
  match w.timerRef with
  | some t => { w with pending := w.pending.erase t, timerRef := none }
  | none => w

/-- Body of `ws.onopen`: `setConnected(true)`, log, clear any pending
reconnect timeout. -/
def onopen (w : World) : World :=
  clearReconnectTimeout (addLog "✅ Connected to WebSocket" { w with connected := true })

/-- Body of `ws.onmessage`. -/
def onmessage (data : String) (w : World) : World :=
  addLog ("📨 " ++ data) w

/-- Body of `ws.onerror`. -/
def onerror (w : World) : World :=
  addLog "❌ WebSocket error" w

/-- Body of `ws.onclose`: `setConnected(false)`, log the code, and if
`autoConnect && event.code !== 1000` log again and
`reconnectTimeoutRef.current = setTimeout(..., 3000)`.  Note the source
assigns the new timer id into the ref without `clearTimeout` on whatever
the ref held before. -/
def onclose (code : Nat) (w : World) : World :=
  let w1 := addLog ("🔌 Disconnected (code: " ++ Nat.repr code ++ ")") { w with connected := false }
  if w1.autoConnect ∧ code ≠ 1000 then
    let w2 := addLog "🔄 Auto-reconnecting in 3 seconds..." w1
    { w2 with
      pending := w2.pending ++ [w2.nextTimer]
      timerRef := some w2.nextTimer
      nextTimer := w2.nextTimer + 1 }
  else w1

/-- `wsRef.current?.close(1000, ...)`: a browser `close()` call does
nothing on a CLOSING or CLOSED socket and otherwise moves it to CLOSING
(the close *event* is delivered later by the event loop). -/
def closeCurrentSocket (w : World) : World :=
  match w.wsRef with
  | some sid =>
    match w.sockets sid with
    | some ReadyState.CONNECTING =>
      { w with sockets := fun s => if s = sid then some ReadyState.CLOSING else w.sockets s }
    | some ReadyState.OPEN =>
      { w with sockets := fun s => if s = sid then some ReadyState.CLOSING else w.sockets s }
    | _ => w
  | none => w

/-- `disconnect()`: `setAutoConnect(false)`, clear the pending reconnect
timeout, `wsRef.current?.close(1000, 'Manual disconnect')`. -/
def disconnect (w : World) : World :=
  closeCurrentSocket (clearReconnectTimeout { w with autoConnect := false })

/-- The guard of `sendMessage`: `ws` is present and `readyState === OPEN`.
This is the code's own notion of the manager being in the `Open` state. -/
def wsOpen (w : World) : Bool :=
  match w.wsRef with
  | some sid => decide (w.sockets sid = some ReadyState.OPEN)
  | none => false

/-- `sendMessage(message)`: warn and drop unless the current socket is
OPEN, otherwise `ws.send(message)` and log the send. -/
def sendMessage (message : String) (w : World) : World :=
  match w.wsRef with
  | none => addLog "⚠️ Not connected" w
  | some sid =>
    if w.sockets sid = some ReadyState.OPEN then
      addLog ("📤 Sent: " ++ message) { w with sent := w.sent ++ [(sid, message)] }
    else addLog "⚠️ Not connected" w

/-- The `auth:changed` listener `handleAuthChanged`: `logged_out` logs and
runs `disconnect()`; `logged_in` logs, `setAutoConnect(true)` and
`connect()`; any other detail falls through to a bare `connect()`. -/
def handleAuthChanged (sig : AuthSignal) (w : World) : World :=
  match sig with
  | AuthSignal.loggedOut =>
    disconnect (addLog "🔒 Auth changed: logged out → disconnecting WebSocket"
      { w with authStatus := AuthState.loggedOut })
  | AuthSignal.loggedIn =>
    connect
      { addLog "🔓 Auth changed: logged in → reconnecting WebSocket"
          { w with authStatus := AuthState.loggedIn } with
        autoConnect := true }
  | AuthSignal.other => connect w

/-- The `res.ok` branch of `checkAuthAndConnect`: `setAutoConnect(true)`,
`connect()`, then `window.dispatchEvent(new CustomEvent('auth:changed',
{ status: 'logged_in', source: 'mount_check' }))` — `dispatchEvent` runs
the provider's own `auth:changed` listener synchronously (the probe
resolves after the effect body registered it). -/
def checkAuthOk (w : World) : World :=
  handleAuthChanged AuthSignal.loggedIn
    (connect { w with autoConnect := true, authStatus := AuthState.loggedIn, probed := true })

/-- The failure branches of `checkAuthAndConnect` (`!res.ok` and `catch`):
just `setAutoConnect(false)`. -/
def checkAuthFail (w : World) : World :=
  { w with autoConnect := false, authStatus := AuthState.loggedOut, probed := true }

/-- The `visibilitychange` listener when the page became visible
(`!document.hidden`): `if (!connected && autoConnect) { addLog(...); connect() }`. -/
def handleVisibilityChange (w : World) : World :=
  if w.connected = false ∧ w.autoConnect = true then
    connect (addLog "👁️ Page visible, reconnecting..." w)
  else w

/-- The callback passed to `setTimeout` in `ws.onclose`: when timer `t`
fires it is no longer pending, and the callback body runs
`if (autoConnect) connect()`. -/
def fireTimer (t : Nat) (w : World) : World :=
  let w1 := { w with pending := w.pending.erase t }
  if w1.autoConnect then connect w1 else w1

/-- One turn of the event loop, as the environment can deliver it. -/
inductive Event
  | probeOk
  | probeFail
  | transportOpen (sid : Nat)
  | transportMessage (sid : Nat) (data : String)
  | transportError (sid : Nat)
  | transportClose (sid : Nat) (code : Nat)
  | authChanged (sig : AuthSignal)
  | visibilityRegained
  | timerFire (t : Nat)
  | send (m : String)
  | tick
  deriving DecidableEq, Repr

/-- Deliver one event.  Deliverability mirrors the browser: the mount
probe resolves at most once; a socket's `open` fires only while it is
CONNECTING, `message` only while OPEN, `error` only before it closed,
`close` on any socket that exists and is not yet CLOSED (the environment
chooses the close code: 1000 for a clean closure, 1006 and friends for
abnormal ones); a timer fires only while pending.  An undeliverable event
is a no-op turn. -/
def step (w : World) (e : Event) : World :=
  match e with
  | Event.probeOk => if w.probed then w else checkAuthOk w
  | Event.probeFail => if w.probed then w else checkAuthFail w
  | Event.transportOpen sid =>
    if w.sockets sid = some ReadyState.CONNECTING then
      onopen { w with sockets := fun s => if s = sid then some ReadyState.OPEN else w.sockets s }
    else w
  | Event.transportMessage sid data =>
    if w.sockets sid = some ReadyState.OPEN then onmessage data w else w
  | Event.transportError sid =>
    if w.sockets sid = some ReadyState.CONNECTING ∨ w.sockets sid = some ReadyState.OPEN then
      onerror w
    else w
  | Event.transportClose sid code =>
    match w.sockets sid with
    | none => w
    | some ReadyState.CLOSED => w
    | some _ =>
      onclose code { w with sockets := fun s => if s = sid then some ReadyState.CLOSED else w.sockets s }
  | Event.authChanged sig => handleAuthChanged sig w
  | Event.visibilityRegained => handleVisibilityChange w
  | Event.timerFire t => if t ∈ w.pending then fireTimer t w else w
  | Event.send m => sendMessage m w
  | Event.tick => { w with clock := w.clock + 1 }

/-- An execution: fold the event list over `step`. -/
def run (w : World) (evs : List Event) : World :=
  evs.foldl step w

/-- The spec's `Closed` / `ReconnectWaiting` region: no transport attempt
is live (the ref is empty, or the socket it holds is closing or closed).
The spec's state machine moves to `Closed` the moment a close is
*requested*, so a CLOSING socket counts as closed here; `ReconnectWaiting`
is this region with a pending timer. -/
def closedState (w : World) : Bool :=
  match w.wsRef with
  | none => true
  | some sid =>
    match w.sockets sid with
    | some ReadyState.CONNECTING => false
    | some ReadyState.OPEN => false
    | _ => true

section ProjectionLemmas

variable (w : World)

@[simp] theorem addLog_clock (l : String) : (addLog l w).clock = w.clock := rfl
@[simp] theorem addLog_connected (l : String) : (addLog l w).connected = w.connected := rfl
@[simp] theorem addLog_wsRef (l : String) : (addLog l w).wsRef = w.wsRef := rfl
@[simp] theorem addLog_sockets (l : String) : (addLog l w).sockets = w.sockets := rfl
@[simp] theorem addLog_nextSock (l : String) : (addLog l w).nextSock = w.nextSock := rfl
@[simp] theorem addLog_timerRef (l : String) : (addLog l w).timerRef = w.timerRef := rfl
@[simp] theorem addLog_pending (l : String) : (addLog l w).pending = w.pending := rfl
@[simp] theorem addLog_nextTimer (l : String) : (addLog l w).nextTimer = w.nextTimer := rfl
@[simp] theorem addLog_autoConnect (l : String) : (addLog l w).autoConnect = w.autoConnect := rfl
@[simp] theorem addLog_authStatus (l : String) : (addLog l w).authStatus = w.authStatus := rfl
@[simp] theorem addLog_probed (l : String) : (addLog l w).probed = w.probed := rfl
@[simp] theorem addLog_sent (l : String) : (addLog l w).sent = w.sent := rfl
@[simp] theorem addLog_logs (l : String) :
    (addLog l w).logs = w.logs ++ [logAt w.clock l] := rfl

@[simp] theorem connect_logs : (connect w).logs = w.logs := by
  unfold connect; split <;> rfl
@[simp] theorem connect_clock : (connect w).clock = w.clock := by
  unfold connect; split <;> rfl
@[simp] theorem connect_connected : (connect w).connected = w.connected := by
  unfold connect; split <;> rfl
@[simp] theorem connect_timerRef : (connect w).timerRef = w.timerRef := by
  unfold connect; split <;> rfl
@[simp] theorem connect_pending : (connect w).pending = w.pending := by
  unfold connect; split <;> rfl
@[simp] theorem connect_nextTimer : (connect w).nextTimer = w.nextTimer := by
  unfold connect; split <;> rfl
@[simp] theorem connect_autoConnect : (connect w).autoConnect = w.autoConnect := by
  unfold connect; split <;> rfl
@[simp] theorem connect_authStatus : (connect w).authStatus = w.authStatus := by
  unfold connect; split <;> rfl
@[simp] theorem connect_probed : (connect w).probed = w.probed := by
  unfold connect; split <;> rfl
@[simp] theorem connect_sent : (connect w).sent = w.sent := by
  unfold connect; split <;> rfl

@[simp] theorem clearReconnectTimeout_logs : (clearReconnectTimeout w).logs = w.logs := by
  unfold clearReconnectTimeout; split <;> rfl
@[simp] theorem clearReconnectTimeout_clock : (clearReconnectTimeout w).clock = w.clock := by
  unfold clearReconnectTimeout; split <;> rfl
@[simp] theorem clearReconnectTimeout_connected :
    (clearReconnectTimeout w).connected = w.connected := by
  unfold clearReconnectTimeout; split <;> rfl
@[simp] theorem clearReconnectTimeout_wsRef : (clearReconnectTimeout w).wsRef = w.wsRef := by
  unfold clearReconnectTimeout; split <;> rfl
@[simp] theorem clearReconnectTimeout_sockets : (clearReconnectTimeout w).sockets = w.sockets := by
  unfold clearReconnectTimeout; split <;> rfl
@[simp] theorem clearReconnectTimeout_nextSock :
    (clearReconnectTimeout w).nextSock = w.nextSock := by
  unfold clearReconnectTimeout; split <;> rfl
@[simp] theorem clearReconnectTimeout_nextTimer :
    (clearReconnectTimeout w).nextTimer = w.nextTimer := by
  unfold clearReconnectTimeout; split <;> rfl
@[simp] theorem clearReconnectTimeout_autoConnect :
    (clearReconnectTimeout w).autoConnect = w.autoConnect := by
  unfold clearReconnectTimeout; split <;> rfl
@[simp] theorem clearReconnectTimeout_authStatus :
    (clearReconnectTimeout w).authStatus = w.authStatus := by
  unfold clearReconnectTimeout; split <;> rfl
@[simp] theorem clearReconnectTimeout_probed : (clearReconnectTimeout w).probed = w.probed := by
  unfold clearReconnectTimeout; split <;> rfl
@[simp] theorem clearReconnectTimeout_sent : (clearReconnectTimeout w).sent = w.sent := by
  unfold clearReconnectTimeout; split <;> rfl
@[simp] theorem clearReconnectTimeout_timerRef : (clearReconnectTimeout w).timerRef = none := by
  unfold clearReconnectTimeout; split
  · rfl
  · assumption

theorem clearReconnectTimeout_pending_sub {t : Nat} {w : World}
    (h : t ∈ (clearReconnectTimeout w).pending) : t ∈ w.pending := by
  unfold clearReconnectTimeout at h
  split at h
  · exact List.mem_of_mem_erase h
  · exact h

@[simp] theorem closeCurrentSocket_logs : (closeCurrentSocket w).logs = w.logs := by
  unfold closeCurrentSocket; split <;> first | rfl | (split <;> rfl)
@[simp] theorem closeCurrentSocket_clock : (closeCurrentSocket w).clock = w.clock := by
  unfold closeCurrentSocket; split <;> first | rfl | (split <;> rfl)
@[simp] theorem closeCurrentSocket_connected :
    (closeCurrentSocket w).connected = w.connected := by
  unfold closeCurrentSocket; split <;> first | rfl | (split <;> rfl)
@[simp] theorem closeCurrentSocket_wsRef : (closeCurrentSocket w).wsRef = w.wsRef := by
  unfold closeCurrentSocket; split <;> first | rfl | (split <;> rfl)
@[simp] theorem closeCurrentSocket_nextSock : (closeCurrentSocket w).nextSock = w.nextSock := by
  unfold closeCurrentSocket; split <;> first | rfl | (split <;> rfl)
@[simp] theorem closeCurrentSocket_timerRef : (closeCurrentSocket w).timerRef = w.timerRef := by
  unfold closeCurrentSocket; split <;> first | rfl | (split <;> rfl)
@[simp] theorem closeCurrentSocket_pending : (closeCurrentSocket w).pending = w.pending := by
  unfold closeCurrentSocket; split <;> first | rfl | (split <;> rfl)
@[simp] theorem closeCurrentSocket_nextTimer :
    (closeCurrentSocket w).nextTimer = w.nextTimer := by
  unfold closeCurrentSocket; split <;> first | rfl | (split <;> rfl)
@[simp] theorem closeCurrentSocket_autoConnect :
    (closeCurrentSocket w).autoConnect = w.autoConnect := by
  unfold closeCurrentSocket; split <;> first | rfl | (split <;> rfl)
@[simp] theorem closeCurrentSocket_authStatus :
    (closeCurrentSocket w).authStatus = w.authStatus := by
  unfold closeCurrentSocket; split <;> first | rfl | (split <;> rfl)
@[simp] theorem closeCurrentSocket_probed : (closeCurrentSocket w).probed = w.probed := by
  unfold closeCurrentSocket; split <;> first | rfl | (split <;> rfl)
@[simp] theorem closeCurrentSocket_sent : (closeCurrentSocket w).sent = w.sent := by
  unfold closeCurrentSocket; split <;> first | rfl | (split <;> rfl)

/-- A `close()` request always leaves the referenced socket non-live. -/
theorem closedState_closeCurrentSocket : closedState (closeCurrentSocket w) = true := by
  unfold closedState closeCurrentSocket
  rcases h : w.wsRef with _ | sid
  · simp [h]
  · rcases hs : w.sockets sid with _ | rs
    · simp [h, hs]
    · cases rs <;> simp [h, hs]

@[simp] theorem disconnect_autoConnect : (disconnect w).autoConnect = false := by
  unfold disconnect; simp
@[simp] theorem disconnect_timerRef : (disconnect w).timerRef = none := by
  unfold disconnect; simp
@[simp] theorem disconnect_logs : (disconnect w).logs = w.logs := by
  unfold disconnect; simp
@[simp] theorem disconnect_nextSock : (disconnect w).nextSock = w.nextSock := by
  unfold disconnect; simp
@[simp] theorem disconnect_authStatus : (disconnect w).authStatus = w.authStatus := by
  unfold disconnect; simp

theorem closedState_disconnect : closedState (disconnect w) = true := by
  unfold disconnect
  exact closedState_closeCurrentSocket _

@[simp] theorem isLive_addLog (l : String) : isLive (addLog l w) = isLive w := rfl
@[simp] theorem isLive_setAutoConnect (b : Bool) :
    isLive { w with autoConnect := b } = isLive w := rfl
@[simp] theorem isLive_setAuthStatus (a : AuthState) :
    isLive { w with authStatus := a } = isLive w := rfl
@[simp] theorem isLive_setPending (p : List Nat) :
    isLive { w with pending := p } = isLive w := rfl
@[simp] theorem isLive_checkAuthUpd :
    isLive { w with autoConnect := true, authStatus := AuthState.loggedIn, probed := true }
      = isLive w := rfl

/-- The `connect` guard is the complement of the `Closed`/`ReconnectWaiting`
region. -/
theorem isLive_eq_not_closedState : isLive w = !(closedState w) := by
  unfold isLive closedState
  rcases h : w.wsRef with _ | sid
  · rfl
  · rcases hs : w.sockets sid with _ | rs
    · simp [hs]
    · cases rs <;> simp [hs]

theorem connect_of_isLive (h : isLive w = true) : connect w = w := by
  unfold connect
  simp [h]

theorem connect_creates (h : isLive w = false) :
    (connect w).nextSock = w.nextSock + 1 ∧ (connect w).wsRef = some w.nextSock := by
  unfold connect
  simp [h]

@[simp] theorem onclose_wsRef (code : Nat) : (onclose code w).wsRef = w.wsRef := by
  simp only [onclose]; split <;> rfl
@[simp] theorem onclose_sockets (code : Nat) : (onclose code w).sockets = w.sockets := by
  simp only [onclose]; split <;> rfl
@[simp] theorem onclose_nextSock (code : Nat) : (onclose code w).nextSock = w.nextSock := by
  simp only [onclose]; split <;> rfl
@[simp] theorem onclose_autoConnect (code : Nat) :
    (onclose code w).autoConnect = w.autoConnect := by
  simp only [onclose]; split <;> rfl
@[simp] theorem onclose_authStatus (code : Nat) : (onclose code w).authStatus = w.authStatus := by
  simp only [onclose]; split <;> rfl
@[simp] theorem onclose_probed (code : Nat) : (onclose code w).probed = w.probed := by
  simp only [onclose]; split <;> rfl
@[simp] theorem onclose_sent (code : Nat) : (onclose code w).sent = w.sent := by
  simp only [onclose]; split <;> rfl
@[simp] theorem onclose_clock (code : Nat) : (onclose code w).clock = w.clock := by
  simp only [onclose]; split <;> rfl
@[simp] theorem onclose_connected (code : Nat) : (onclose code w).connected = false := by
  simp only [onclose]; split <;> rfl

/-- When the close is normal (code 1000) or `autoConnect` is off, the
`ws.onclose` body only flips `connected` and logs the disconnect. -/
theorem onclose_eq_of_no_reconnect {code : Nat} (w : World)
    (h : code = 1000 ∨ w.autoConnect = false) :
    onclose code w
      = addLog ("🔌 Disconnected (code: " ++ Nat.repr code ++ ")")
          { w with connected := false } := by
  simp only [onclose]
  split
  · rename_i hcond
    exfalso
    rcases hcond with ⟨ha, hcode⟩
    rcases h with h | h
    · exact hcode h
    · simp [h] at ha
  · rfl

@[simp] theorem handleAuthChanged_loggedIn_pending :
    (handleAuthChanged AuthSignal.loggedIn w).pending = w.pending := by
  unfold handleAuthChanged; simp
@[simp] theorem handleAuthChanged_other_pending :
    (handleAuthChanged AuthSignal.other w).pending = w.pending := by
  unfold handleAuthChanged; simp
theorem handleAuthChanged_loggedOut_pending_sub {t : Nat} {w : World}
    (h : t ∈ (handleAuthChanged AuthSignal.loggedOut w).pending) : t ∈ w.pending := by
  unfold handleAuthChanged disconnect at h
  rw [closeCurrentSocket_pending] at h
  have h2 := clearReconnectTimeout_pending_sub h
  exact h2
@[simp] theorem checkAuthOk_pending : (checkAuthOk w).pending = w.pending := by
  unfold checkAuthOk; simp

/-- Under a normal close or `autoConnect` off, `ws.onclose` leaves the
timer state untouched. -/
theorem onclose_no_schedule {code : Nat} (w : World) (h : code = 1000 ∨ w.autoConnect = false) :
    (onclose code w).pending = w.pending ∧ (onclose code w).nextTimer = w.nextTimer ∧
    (onclose code w).timerRef = w.timerRef := by
  rw [onclose_eq_of_no_reconnect w h]
  exact ⟨rfl, rfl, rfl⟩

@[simp] theorem onopen_autoConnect : (onopen w).autoConnect = w.autoConnect := by
  unfold onopen; simp
@[simp] theorem onopen_authStatus : (onopen w).authStatus = w.authStatus := by
  unfold onopen; simp
@[simp] theorem onopen_nextSock : (onopen w).nextSock = w.nextSock := by
  unfold onopen; simp

@[simp] theorem sendMessage_autoConnect (m : String) :
    (sendMessage m w).autoConnect = w.autoConnect := by
  unfold sendMessage; split
  · simp
  · split <;> simp
@[simp] theorem sendMessage_authStatus (m : String) :
    (sendMessage m w).authStatus = w.authStatus := by
  unfold sendMessage; split
  · simp
  · split <;> simp
@[simp] theorem sendMessage_nextSock (m : String) :
    (sendMessage m w).nextSock = w.nextSock := by
  unfold sendMessage; split
  · simp
  · split <;> simp

@[simp] theorem handleAuthChanged_loggedIn_autoConnect :
    (handleAuthChanged AuthSignal.loggedIn w).autoConnect = true := by
  unfold handleAuthChanged; simp
@[simp] theorem handleAuthChanged_loggedIn_authStatus :
    (handleAuthChanged AuthSignal.loggedIn w).authStatus = AuthState.loggedIn := by
  unfold handleAuthChanged; simp
@[simp] theorem handleAuthChanged_loggedOut_autoConnect :
    (handleAuthChanged AuthSignal.loggedOut w).autoConnect = false := by
  unfold handleAuthChanged; simp
@[simp] theorem handleAuthChanged_loggedOut_authStatus :
    (handleAuthChanged AuthSignal.loggedOut w).authStatus = AuthState.loggedOut := by
  unfold handleAuthChanged; simp
@[simp] theorem handleAuthChanged_loggedOut_nextSock :
    (handleAuthChanged AuthSignal.loggedOut w).nextSock = w.nextSock := by
  unfold handleAuthChanged; simp
@[simp] theorem handleAuthChanged_other_autoConnect :
    (handleAuthChanged AuthSignal.other w).autoConnect = w.autoConnect := by
  unfold handleAuthChanged; simp
@[simp] theorem handleAuthChanged_other_authStatus :
    (handleAuthChanged AuthSignal.other w).authStatus = w.authStatus := by
  unfold handleAuthChanged; simp

@[simp] theorem checkAuthOk_autoConnect : (checkAuthOk w).autoConnect = true := by
  unfold checkAuthOk; simp
@[simp] theorem checkAuthOk_authStatus : (checkAuthOk w).authStatus = AuthState.loggedIn := by
  unfold checkAuthOk; simp

@[simp] theorem disconnect_clock : (disconnect w).clock = w.clock := by
  unfold disconnect; simp
@[simp] theorem onopen_clock : (onopen w).clock = w.clock := by
  unfold onopen; simp
@[simp] theorem fireTimer_logs (t : Nat) : (fireTimer t w).logs = w.logs := by
  simp only [fireTimer]; split <;> simp
@[simp] theorem fireTimer_clock (t : Nat) : (fireTimer t w).clock = w.clock := by
  simp only [fireTimer]; split <;> simp
@[simp] theorem sendMessage_clock (m : String) : (sendMessage m w).clock = w.clock := by
  unfold sendMessage; split
  · simp
  · split <;> simp

/-- Under an abnormal close with `autoConnect` on, `ws.onclose` schedules
exactly one new timer and repoints the timeout ref at it — without
removing anything from `pending`. -/
theorem onclose_schedules {code : Nat} (w : World) (hauto : w.autoConnect = true)
    (hcode : code ≠ 1000) :
    (onclose code w).pending = w.pending ++ [w.nextTimer] ∧
    (onclose code w).timerRef = some w.nextTimer ∧
    (onclose code w).nextTimer = w.nextTimer + 1 := by
  simp only [onclose]
  rw [if_pos]
  · exact ⟨rfl, rfl, rfl⟩
  · exact ⟨by simpa using hauto, hcode⟩

end ProjectionLemmas

/-- The flag/status invariant: `autoConnect` can only be on while the last
observed auth signal was positive.  Every handler preserves it, because
the only writes of `autoConnect := true` (probe success, `logged_in`)
also record a positive auth status, and every negative observation clears
the flag. -/
def AuthInv (w : World) : Prop :=
  w.autoConnect = true → w.authStatus = AuthState.loggedIn

theorem authInv_step (w : World) (e : Event) (h : AuthInv w) : AuthInv (step w e) := by
  cases e with
  | probeOk =>
    by_cases hp : w.probed = true
    · rw [show step w Event.probeOk = w from by simp [step, hp]]
      exact h
    · rw [show step w Event.probeOk = checkAuthOk w from by simp [step, hp]]
      intro _
      simp
  | probeFail =>
    by_cases hp : w.probed = true
    · rw [show step w Event.probeFail = w from by simp [step, hp]]
      exact h
    · rw [show step w Event.probeFail = checkAuthFail w from by simp [step, hp]]
      intro ha
      simp [checkAuthFail] at ha
  | transportOpen sid =>
    simp only [step]
    split
    · intro ha
      have ha' : w.autoConnect = true := by simpa using ha
      simpa using h ha'
    · exact h
  | transportMessage sid data =>
    simp only [step]
    split
    · intro ha
      have ha' : w.autoConnect = true := by simpa using ha
      simpa using h ha'
    · exact h
  | transportError sid =>
    simp only [step]
    split
    · intro ha
      have ha' : w.autoConnect = true := by simpa using ha
      simpa using h ha'
    · exact h
  | transportClose sid code =>
    simp only [step]
    split
    · exact h
    · exact h
    · intro ha
      have ha' : w.autoConnect = true := by simpa using ha
      simpa using h ha'
  | authChanged sig =>
    cases sig with
    | loggedIn =>
      intro _
      simp [step]
    | loggedOut =>
      intro ha
      simp [step] at ha
    | other =>
      intro ha
      have ha' : w.autoConnect = true := by simpa [step] using ha
      show (handleAuthChanged AuthSignal.other w).authStatus = AuthState.loggedIn
      simpa using h ha'
  | visibilityRegained =>
    simp only [step, handleVisibilityChange]
    split
    · intro ha
      have ha' : w.autoConnect = true := by simpa using ha
      simpa using h ha'
    · exact h
  | timerFire t =>
    simp only [step]
    split
    · simp only [fireTimer]
      split
      · intro ha
        have ha' : w.autoConnect = true := by simpa using ha
        simpa using h ha'
      · intro ha
        have ha' : w.autoConnect = true := by simpa using ha
        simpa using h ha'
    · exact h
  | send m =>
    intro ha
    have ha' : w.autoConnect = true := by simpa [step] using ha
    show (sendMessage m w).authStatus = AuthState.loggedIn
    simpa using h ha'
  | tick =>
    intro ha
    exact h ha

theorem authInv_run (evs : List Event) : AuthInv (run init evs) := by
  have aux : ∀ (l : List Event) (w : World), AuthInv w → AuthInv (List.foldl step w l) := by
    intro l
    induction l with
    | nil => intro w h; exact h
    | cons e l ih => intro w h; exact ih (step w e) (authInv_step w e h)
  exact aux evs init (fun h => absurd h (by decide))

/-- `ws.onclose` appends one or two log lines, all stamped with the
current clock, and leaves the clock unchanged. -/
theorem onclose_logs_delta (code : Nat) (w : World) :
    ∃ δ : List LogEntry, (onclose code w).logs = w.logs ++ δ ∧
      (∀ x ∈ δ, x.timestamp = w.clock) ∧ (onclose code w).clock = w.clock := by
  simp only [onclose]
  split
  · refine ⟨[logAt w.clock ("🔌 Disconnected (code: " ++ Nat.repr code ++ ")"),
      logAt w.clock "🔄 Auto-reconnecting in 3 seconds..."], ?_, ?_, rfl⟩
    · simp
    · simp
  · exact ⟨[logAt w.clock ("🔌 Disconnected (code: " ++ Nat.repr code ++ ")")],
      by simp, by simp, rfl⟩

/-- `sendMessage` appends exactly one log line stamped with the current
clock. -/
theorem sendMessage_logs_delta (m : String) (w : World) :
    ∃ δ : List LogEntry, (sendMessage m w).logs = w.logs ++ δ ∧
      (∀ x ∈ δ, x.timestamp = w.clock) := by
  unfold sendMessage
  split
  · exact ⟨[logAt w.clock "⚠️ Not connected"], by simp, by simp⟩
  · split
    · exact ⟨[logAt w.clock ("📤 Sent: " ++ m)], by simp, by simp⟩
    · exact ⟨[logAt w.clock "⚠️ Not connected"], by simp, by simp⟩

/-- Every event-loop turn only appends to the log, every appended entry is
stamped with the pre-turn clock, and the clock never decreases. -/
theorem step_logs_delta (w : World) (e : Event) :
    ∃ δ : List LogEntry, (step w e).logs = w.logs ++ δ ∧
      (∀ x ∈ δ, x.timestamp = w.clock) ∧ w.clock ≤ (step w e).clock := by
  cases e with
  | probeOk =>
    by_cases hp : w.probed = true
    · exact ⟨[], by simp [step, hp], by simp, by simp [step, hp]⟩
    · refine ⟨[logAt w.clock "🔓 Auth changed: logged in → reconnecting WebSocket"],
        ?_, by simp, ?_⟩
      · simp [step, hp, checkAuthOk, handleAuthChanged]
      · simp [step, hp, checkAuthOk, handleAuthChanged]
  | probeFail =>
    by_cases hp : w.probed = true
    · exact ⟨[], by simp [step, hp], by simp, by simp [step, hp]⟩
    · exact ⟨[], by simp [step, hp, checkAuthFail], by simp, by simp [step, hp, checkAuthFail]⟩
  | transportOpen sid =>
    by_cases hs : w.sockets sid = some ReadyState.CONNECTING
    · refine ⟨[logAt w.clock "✅ Connected to WebSocket"], ?_, by simp, ?_⟩
      · simp [step, hs, onopen]
      · simp [step, hs]
    · exact ⟨[], by simp [step, hs], by simp, by simp [step, hs]⟩
  | transportMessage sid data =>
    by_cases hs : w.sockets sid = some ReadyState.OPEN
    · refine ⟨[logAt w.clock ("📨 " ++ data)], ?_, by simp, ?_⟩
      · simp [step, hs, onmessage]
      · simp [step, hs, onmessage]
    · exact ⟨[], by simp [step, hs], by simp, by simp [step, hs]⟩
  | transportError sid =>
    by_cases hs : w.sockets sid = some ReadyState.CONNECTING ∨
        w.sockets sid = some ReadyState.OPEN
    · have hstep : step w (Event.transportError sid) = onerror w := by
        simp only [step]
        rw [if_pos hs]
      refine ⟨[logAt w.clock "❌ WebSocket error"], ?_, by simp, ?_⟩
      · rw [hstep]
        simp [onerror]
      · rw [hstep]
        simp [onerror]
    · have hstep : step w (Event.transportError sid) = w := by
        simp only [step]
        rw [if_neg hs]
      exact ⟨[], by rw [hstep]; simp, by simp, by rw [hstep]⟩
  | transportClose sid code =>
    rcases hs : w.sockets sid with _ | rs
    · exact ⟨[], by simp [step, hs], by simp, by simp [step, hs]⟩
    · cases rs
      case CLOSED => exact ⟨[], by simp [step, hs], by simp, by simp [step, hs]⟩
      all_goals
        have hstep : step w (Event.transportClose sid code)
            = onclose code { w with sockets :=
                fun s => if s = sid then some ReadyState.CLOSED else w.sockets s } := by
          simp [step, hs]
        obtain ⟨δ, h1, h2, h3⟩ := onclose_logs_delta code
          { w with sockets := fun s => if s = sid then some ReadyState.CLOSED else w.sockets s }
        refine ⟨δ, ?_, ?_, ?_⟩
        · rw [hstep]
          exact h1
        · exact fun x hx => h2 x hx
        · rw [hstep, h3]
  | authChanged sig =>
    cases sig with
    | loggedIn =>
      refine ⟨[logAt w.clock "🔓 Auth changed: logged in → reconnecting WebSocket"],
        ?_, by simp, ?_⟩
      · simp [step, handleAuthChanged]
      · simp [step, handleAuthChanged]
    | loggedOut =>
      refine ⟨[logAt w.clock "🔒 Auth changed: logged out → disconnecting WebSocket"],
        ?_, by simp, ?_⟩
      · simp [step, handleAuthChanged]
      · simp [step, handleAuthChanged]
    | other =>
      exact ⟨[], by simp [step, handleAuthChanged], by simp, by simp [step, handleAuthChanged]⟩
  | visibilityRegained =>
    by_cases hc : w.connected = false ∧ w.autoConnect = true
    · have hstep : step w Event.visibilityRegained
          = connect (addLog "👁️ Page visible, reconnecting..." w) := by
        simp only [step, handleVisibilityChange]
        rw [if_pos hc]
      refine ⟨[logAt w.clock "👁️ Page visible, reconnecting..."], ?_, by simp, ?_⟩
      · rw [hstep]
        simp
      · rw [hstep]
        simp
    · have hstep : step w Event.visibilityRegained = w := by
        simp only [step, handleVisibilityChange]
        rw [if_neg hc]
      exact ⟨[], by rw [hstep]; simp, by simp, by rw [hstep]⟩
  | timerFire t =>
    by_cases htp : t ∈ w.pending
    · have hstep : step w (Event.timerFire t) = fireTimer t w := by
        simp only [step]
        rw [if_pos htp]
      exact ⟨[], by rw [hstep]; simp, by simp, by rw [hstep]; simp⟩
    · have hstep : step w (Event.timerFire t) = w := by
        simp only [step]
        rw [if_neg htp]
      exact ⟨[], by rw [hstep]; simp, by simp, by rw [hstep]⟩
  | send m =>
    obtain ⟨δ, h1, h2⟩ := sendMessage_logs_delta m w
    exact ⟨δ, h1, h2, by simp [step]⟩
  | tick =>
    exact ⟨[], by simp [step], by simp, by simp [step]⟩

/-- Entries that all carry the same timestamp are pairwise non-decreasing. -/
theorem pairwise_of_const_timestamp (δ : List LogEntry) (c : Nat)
    (h : ∀ x ∈ δ, x.timestamp = c) :
    δ.Pairwise (fun a b => a.timestamp ≤ b.timestamp) := by
  induction δ with
  | nil => exact List.Pairwise.nil
  | cons a l ih =>
    constructor
    · intro b hb
      rw [h a (by simp), h b (by simp [hb])]
    · exact ih (fun x hx => h x (by simp [hx]))

/-- The log invariant: timestamps are non-decreasing along the buffer and
bounded by the current clock. -/
def LogsInv (w : World) : Prop :=
  w.logs.Pairwise (fun a b => a.timestamp ≤ b.timestamp) ∧
    ∀ x ∈ w.logs, x.timestamp ≤ w.clock

theorem logsInv_step (w : World) (e : Event) (h : LogsInv w) : LogsInv (step w e) := by
  obtain ⟨δ, hlogs, hts, hclk⟩ := step_logs_delta w e
  constructor
  · rw [hlogs, List.pairwise_append]
    refine ⟨h.1, pairwise_of_const_timestamp δ w.clock hts, ?_⟩
    intro a ha b hb
    rw [hts b hb]
    exact h.2 a ha
  · intro x hx
    rw [hlogs] at hx
    rcases List.mem_append.mp hx with hx | hx
    · exact le_trans (h.2 x hx) hclk
    · rw [hts x hx]
      exact hclk

theorem logsInv_run (evs : List Event) : LogsInv (run init evs) := by
  have aux : ∀ (l : List Event) (w : World), LogsInv w → LogsInv (List.foldl step w l) := by
    intro l
    induction l with
    | nil => intro w h; exact h
    | cons e l ih => intro w h; exact ih (step w e) (logsInv_step w e h)
  refine aux evs init ⟨List.Pairwise.nil, ?_⟩
  intro x hx
  cases hx

/-- Any continuation of a run only ever appends to the log buffer. -/
theorem run_logs_append (w : World) (evs : List Event) :
    ∃ δ : List LogEntry, (run w evs).logs = w.logs ++ δ := by
  induction evs generalizing w with
  | nil => exact ⟨[], by simp [run]⟩
  | cons e l ih =>
    obtain ⟨δ1, h1, _, _⟩ := step_logs_delta w e
    obtain ⟨δ2, h2⟩ := ih (step w e)
    refine ⟨δ1 ++ δ2, ?_⟩
    show (run (step w e) l).logs = _
    rw [h2, h1, List.append_assoc]

/-! ## The claims -/

/-- C7: a visibility-regain event initiates an immediate connect attempt
(a fresh socket is created in that very turn, with no timer wait) exactly
when the manager is in the `Closed`/`ReconnectWaiting` region
(`closedState`), `AutoReconnect` is on and `connected` is false; in every
other state it creates no socket and leaves the transport reference
unchanged. -/
theorem c7_visibility_regained (w : World) :
    ((w.connected = false ∧ w.autoConnect = true ∧ closedState w = true) →
      (step w Event.visibilityRegained).nextSock = w.nextSock + 1 ∧
      (step w Event.visibilityRegained).wsRef = some w.nextSock) ∧
    (¬(w.connected = false ∧ w.autoConnect = true ∧ closedState w = true) →
      (step w Event.visibilityRegained).nextSock = w.nextSock ∧
      (step w Event.visibilityRegained).wsRef = w.wsRef) := by
  constructor
  · rintro ⟨h1, h2, h3⟩
    show (handleVisibilityChange w).nextSock = _ ∧ (handleVisibilityChange w).wsRef = _
    unfold handleVisibilityChange
    rw [if_pos ⟨h1, h2⟩]
    have hl : isLive (addLog "👁️ Page visible, reconnecting..." w) = false := by
      rw [isLive_addLog, isLive_eq_not_closedState, h3]
      rfl
    obtain ⟨ha, hb⟩ := connect_creates _ hl
    exact ⟨ha, hb⟩
  · intro hn
    show (handleVisibilityChange w).nextSock = _ ∧ (handleVisibilityChange w).wsRef = _
    unfold handleVisibilityChange
    by_cases hc : w.connected = false ∧ w.autoConnect = true
    · rw [if_pos hc]
      have h3 : closedState w = false := by
        cases hcl : closedState w
        · rfl
        · exact absurd ⟨hc.1, hc.2, hcl⟩ hn
      have hl : isLive (addLog "👁️ Page visible, reconnecting..." w) = true := by
        rw [isLive_addLog, isLive_eq_not_closedState, h3]
        rfl
      rw [connect_of_isLive _ hl]
      exact ⟨rfl, rfl⟩
    · rw [if_neg hc]
      exact ⟨rfl, rfl⟩

/-- C7 witness: after an abnormal close with `AutoReconnect` on (a world in
`ReconnectWaiting` with a pending timer), visibility-regain creates socket 1
at once; while the socket is OPEN (`connected=true`) it creates none. -/
theorem c7_witness :
    ((run init [Event.probeOk, Event.transportClose 0 1006]).connected = false ∧
      (run init [Event.probeOk, Event.transportClose 0 1006]).autoConnect = true ∧
      closedState (run init [Event.probeOk, Event.transportClose 0 1006]) = true) ∧
    (step (run init [Event.probeOk, Event.transportClose 0 1006])
        Event.visibilityRegained).nextSock
      = (run init [Event.probeOk, Event.transportClose 0 1006]).nextSock + 1 ∧
    ¬((run init [Event.probeOk, Event.transportOpen 0]).connected = false ∧
      (run init [Event.probeOk, Event.transportOpen 0]).autoConnect = true ∧
      closedState (run init [Event.probeOk, Event.transportOpen 0]) = true) ∧
    (step (run init [Event.probeOk, Event.transportOpen 0])
        Event.visibilityRegained).nextSock
      = (run init [Event.probeOk, Event.transportOpen 0]).nextSock := by
  refine ⟨by decide, ?_, by decide, ?_⟩
  · exact ((c7_visibility_regained (run init [Event.probeOk, Event.transportClose 0 1006])).1
      (by decide)).1
  · exact ((c7_visibility_regained (run init [Event.probeOk, Event.transportOpen 0])).2
      (by decide)).1

/-- C4: a transport close with code 1000 never schedules a reconnect timer
(no pending timer is added, no timer id is allocated, the timeout ref is
untouched), and the same holds for any code when `AutoReconnect` is off;
conversely, the only step of the whole system that ever adds a pending
timer is a transport close with code ≠ 1000 delivered while
`AutoReconnect` is on. -/
theorem c4_normal_close_never_schedules :
    (∀ (w : World) (sid code : Nat), code = 1000 ∨ w.autoConnect = false →
      (step w (Event.transportClose sid code)).pending = w.pending ∧
      (step w (Event.transportClose sid code)).nextTimer = w.nextTimer ∧
      (step w (Event.transportClose sid code)).timerRef = w.timerRef) ∧
    (∀ (w : World) (e : Event) (t : Nat), t ∈ (step w e).pending →
      t ∈ w.pending ∨
        ∃ sid code, e = Event.transportClose sid code ∧ code ≠ 1000 ∧ w.autoConnect = true) := by
  constructor
  · intro w sid code h
    simp only [step]
    rcases hs : w.sockets sid with _ | rs
    · exact ⟨rfl, rfl, rfl⟩
    · cases rs
      case CLOSED => exact ⟨rfl, rfl, rfl⟩
      all_goals exact onclose_no_schedule _ h
  · intro w e t ht
    cases e with
    | probeOk =>
      left
      simp only [step] at ht
      split at ht
      · exact ht
      · rw [checkAuthOk_pending] at ht
        exact ht
    | probeFail =>
      left
      simp only [step] at ht
      split at ht <;> exact ht
    | transportOpen sid =>
      left
      simp only [step] at ht
      split at ht
      · unfold onopen at ht
        have h2 := clearReconnectTimeout_pending_sub ht
        exact h2
      · exact ht
    | transportMessage sid data =>
      left
      simp only [step] at ht
      split at ht <;> exact ht
    | transportError sid =>
      left
      simp only [step] at ht
      split at ht <;> exact ht
    | transportClose sid code =>
      simp only [step] at ht
      split at ht
      · exact Or.inl ht
      · exact Or.inl ht
      · simp only [onclose] at ht
        split at ht
        · rename_i hcond
          have ht2 : t ∈ w.pending ++ [w.nextTimer] := ht
          rcases List.mem_append.mp ht2 with hin | _
          · exact Or.inl hin
          · refine Or.inr ⟨sid, code, rfl, hcond.2, ?_⟩
            have ha := hcond.1
            simpa using ha
        · exact Or.inl ht
    | authChanged sig =>
      left
      cases sig with
      | loggedIn =>
        rw [show step w (Event.authChanged AuthSignal.loggedIn)
            = handleAuthChanged AuthSignal.loggedIn w from rfl,
          handleAuthChanged_loggedIn_pending] at ht
        exact ht
      | loggedOut =>
        exact handleAuthChanged_loggedOut_pending_sub ht
      | other =>
        rw [show step w (Event.authChanged AuthSignal.other)
            = handleAuthChanged AuthSignal.other w from rfl,
          handleAuthChanged_other_pending] at ht
        exact ht
    | visibilityRegained =>
      left
      simp only [step, handleVisibilityChange] at ht
      split at ht
      · rw [connect_pending] at ht
        exact ht
      · exact ht
    | timerFire t2 =>
      left
      simp only [step] at ht
      split at ht
      · simp only [fireTimer] at ht
        split at ht
        · rw [connect_pending] at ht
          exact List.mem_of_mem_erase ht
        · exact List.mem_of_mem_erase ht
      · exact ht
    | send m =>
      left
      simp only [step, sendMessage] at ht
      split at ht
      · exact ht
      · split at ht <;> exact ht
    | tick =>
      exact Or.inl ht

/-- C4 witness: with socket 0 CONNECTING and `AutoReconnect` on, a close
with code 1000 leaves no pending timer; and the one pending timer after an
abnormal close is accounted for by the second conjunct. -/
theorem c4_witness :
    ((1000 : Nat) = 1000 ∨ (run init [Event.probeOk]).autoConnect = false) ∧
    (step (run init [Event.probeOk]) (Event.transportClose 0 1000)).pending
      = (run init [Event.probeOk]).pending ∧
    (0 : Nat) ∈ (step (run init [Event.probeOk]) (Event.transportClose 0 1006)).pending ∧
    ((0 : Nat) ∈ (run init [Event.probeOk]).pending ∨
      ∃ sid code, Event.transportClose 0 1006 = Event.transportClose sid code ∧
        code ≠ 1000 ∧ (run init [Event.probeOk]).autoConnect = true) := by
  refine ⟨Or.inl rfl, ?_, by decide, ?_⟩
  · exact (c4_normal_close_never_schedules.1 (run init [Event.probeOk]) 0 1000
      (Or.inl rfl)).1
  · exact c4_normal_close_never_schedules.2 (run init [Event.probeOk])
      (Event.transportClose 0 1006) 0 (by decide)

/-- C5: `sendMessage` is a total function (it can raise nothing); when the
manager is not in the `Open` state (the code's guard: no socket in the ref,
or its readyState is not OPEN) it changes nothing at all except appending
the single warning log line — nothing reaches the transport (`sent` is
unchanged), nothing is queued; when the state is Open the message is
delivered to the transport (appended to `sent`) and the send is logged. -/
theorem c5_send_only_when_open (w : World) (m : String) :
    (wsOpen w = false →
      sendMessage m w
        = { w with logs := w.logs ++ [logAt w.clock "⚠️ Not connected"] }) ∧
    (wsOpen w = true →
      ∃ sid, w.wsRef = some sid ∧
        sendMessage m w
          = { w with
              sent := w.sent ++ [(sid, m)]
              logs := w.logs ++ [logAt w.clock ("📤 Sent: " ++ m)] }) := by
  constructor
  · intro h
    have hsm : sendMessage m w = addLog "⚠️ Not connected" w := by
      unfold sendMessage
      rcases hr : w.wsRef with _ | sid
      · rfl
      · have hs : ¬ (w.sockets sid = some ReadyState.OPEN) := by
          intro hc
          unfold wsOpen at h
          rw [hr] at h
          simp [hc] at h
        simp [hs]
    rw [hsm]
    rfl
  · intro h
    obtain ⟨sid, hr⟩ : ∃ sid, w.wsRef = some sid := by
      unfold wsOpen at h
      rcases hw : w.wsRef with _ | sid
      · rw [hw] at h
        cases h
      · exact ⟨sid, rfl⟩
    have hs : w.sockets sid = some ReadyState.OPEN := by
      unfold wsOpen at h
      rw [hr] at h
      simpa using h
    refine ⟨sid, hr, ?_⟩
    have hsm : sendMessage m w
        = addLog ("📤 Sent: " ++ m) { w with sent := w.sent ++ [(sid, m)] } := by
      unfold sendMessage
      simp only [hr]
      rw [if_pos hs]
    rw [hsm]
    rfl

/-- C5 witness: `send("ping")` in the initial (Closed) state only appends
the warning line; in an Open state it reaches the transport. -/
theorem c5_witness :
    (wsOpen init = false ∧
      sendMessage "ping" init
        = { init with logs := init.logs ++ [logAt init.clock "⚠️ Not connected"] }) ∧
    (wsOpen (run init [Event.probeOk, Event.transportOpen 0]) = true ∧
      ∃ sid, (run init [Event.probeOk, Event.transportOpen 0]).wsRef = some sid ∧
        sendMessage "ping" (run init [Event.probeOk, Event.transportOpen 0])
          = { run init [Event.probeOk, Event.transportOpen 0] with
              sent := (run init [Event.probeOk, Event.transportOpen 0]).sent ++ [(sid, "ping")]
              logs := (run init [Event.probeOk, Event.transportOpen 0]).logs ++
                [logAt (run init [Event.probeOk, Event.transportOpen 0]).clock
                  ("📤 Sent: " ++ "ping")] }) := by
  constructor
  · exact ⟨by decide, (c5_send_only_when_open init "ping").1 (by decide)⟩
  · exact ⟨by decide,
      (c5_send_only_when_open (run init [Event.probeOk, Event.transportOpen 0]) "ping").2
        (by decide)⟩

/-- A run that supersedes socket 0: probe ok (socket 0 CONNECTING),
logout (socket 0 CLOSING), login (socket 1 CONNECTING, the new current
generation), socket 1 opens.  Socket 0 is still CLOSING, so its close
callback is still to come — a stale, generation-0 callback. -/
def c1trace : List Event :=
  [Event.probeOk, Event.authChanged AuthSignal.loggedOut,
   Event.authChanged AuthSignal.loggedIn, Event.transportOpen 1]

/-- C1 counterexample: the code has no generation guard.  After `c1trace`
the manager is connected on socket 1 (generation 1) with no pending timer;
delivering the stale close callback of superseded socket 0 (generation 0,
code 1006 — `close()` during the handshake surfaces as an abnormal close)
flips `connected` to false and schedules a reconnect timer, which the
claim says a stale callback can never do. -/
theorem c1_counterexample :
    (run init c1trace).wsRef = some 1 ∧
    (run init c1trace).sockets 0 = some ReadyState.CLOSING ∧
    (run init c1trace).connected = true ∧
    (run init c1trace).pending = [] ∧
    (run init (c1trace ++ [Event.transportClose 0 1006])).connected = false ∧
    (run init (c1trace ++ [Event.transportClose 0 1006])).pending = [0] := by
  decide

/-- C1 amended: a stale transport callback (socket id different from the
one in `wsRef`) is not generation-checked, and a stale close callback does
flip `connected` and can schedule a reconnect timer
(`c1_counterexample`); what does survive is: no stale callback ever
changes the current transport reference, the `AutoReconnect` flag, the
observed auth status, the sent-message list, or creates a socket — and
stale message and error callbacks touch nothing but the log. -/
theorem c1_stale_callbacks (w : World) (sid code : Nat) (d : String)
    (h : w.wsRef ≠ some sid) :
    ((step w (Event.transportClose sid code)).wsRef = w.wsRef ∧
     (step w (Event.transportClose sid code)).autoConnect = w.autoConnect ∧
     (step w (Event.transportClose sid code)).authStatus = w.authStatus ∧
     (step w (Event.transportClose sid code)).sent = w.sent ∧
     (step w (Event.transportClose sid code)).nextSock = w.nextSock) ∧
    ((step w (Event.transportMessage sid d)).connected = w.connected ∧
     (step w (Event.transportMessage sid d)).pending = w.pending ∧
     (step w (Event.transportMessage sid d)).wsRef = w.wsRef ∧
     (step w (Event.transportMessage sid d)).autoConnect = w.autoConnect ∧
     (step w (Event.transportMessage sid d)).sent = w.sent) ∧
    ((step w (Event.transportError sid)).connected = w.connected ∧
     (step w (Event.transportError sid)).pending = w.pending ∧
     (step w (Event.transportError sid)).wsRef = w.wsRef ∧
     (step w (Event.transportError sid)).autoConnect = w.autoConnect ∧
     (step w (Event.transportError sid)).sent = w.sent) := by
  refine ⟨?_, ?_, ?_⟩
  · simp only [step]
    rcases hs : w.sockets sid with _ | rs
    · exact ⟨rfl, rfl, rfl, rfl, rfl⟩
    · cases rs
      case CLOSED => exact ⟨rfl, rfl, rfl, rfl, rfl⟩
      all_goals exact ⟨by simp, by simp, by simp, by simp, by simp⟩
  · simp only [step]
    split <;> exact ⟨rfl, rfl, rfl, rfl, rfl⟩
  · simp only [step]
    split <;> exact ⟨rfl, rfl, rfl, rfl, rfl⟩

/-- C2 counterexample: probe ok (socket 0), abnormal close (timer 0
scheduled), login (socket 1), abnormal close (timer 1 scheduled — the
`setTimeout` assignment overwrites the ref without `clearTimeout`, so
timer 0 leaks), then `logged_out`.  The logout handler clears only the
*tracked* timer 1, so the execution ends in `LoggedOut` with timer 0
still pending — the claim demands zero pending timers. -/
theorem c2_counterexample :
    (run init [Event.probeOk, Event.transportClose 0 1006,
        Event.authChanged AuthSignal.loggedIn, Event.transportClose 1 1006,
        Event.authChanged AuthSignal.loggedOut]).pending = [0] ∧
    (run init [Event.probeOk, Event.transportClose 0 1006,
        Event.authChanged AuthSignal.loggedIn, Event.transportClose 1 1006,
        Event.authChanged AuthSignal.loggedOut]).autoConnect = false := by
  decide

/-- C2 amended: after any event sequence ending in `LoggedOut` the manager
has `AutoReconnect=false`, the reconnect-timeout ref is cleared (the
tracked pending timer was cancelled), and it is in the closed region (the
transport, if any, has been asked to close with the normal-closure
code 1000, so it is CLOSING or CLOSED) — but a previously superseded,
untracked timer may still be pending (`c2_counterexample`). -/
theorem c2_loggedOut_terminal (evs : List Event) :
    (run init (evs ++ [Event.authChanged AuthSignal.loggedOut])).autoConnect = false ∧
    (run init (evs ++ [Event.authChanged AuthSignal.loggedOut])).timerRef = none ∧
    closedState (run init (evs ++ [Event.authChanged AuthSignal.loggedOut])) = true := by
  have hrun : run init (evs ++ [Event.authChanged AuthSignal.loggedOut])
      = handleAuthChanged AuthSignal.loggedOut (run init evs) := by
    unfold run
    rw [List.foldl_append]
    rfl
  rw [hrun]
  unfold handleAuthChanged
  exact ⟨by simp, by simp, closedState_disconnect _⟩

/-- C3 counterexample: probe ok (socket 0), abnormal close (timer 0),
login (socket 1), abnormal close — the second scheduling assigns the ref
without cancelling timer 0, so two reconnect timers are outstanding at
once, violating the at-most-one invariant. -/
theorem c3_counterexample :
    (run init [Event.probeOk, Event.transportClose 0 1006,
        Event.authChanged AuthSignal.loggedIn, Event.transportClose 1 1006]).pending
      = [0, 1] ∧
    (run init [Event.probeOk, Event.transportClose 0 1006,
        Event.authChanged AuthSignal.loggedIn, Event.transportClose 1 1006]).timerRef
      = some 1 := by
  decide

/-- C3 amended: an abnormal close (code ≠ 1000) with `AutoReconnect=true`
schedules exactly one *new* timer and points the timeout ref at it, but it
does not cancel a previously pending timer, so more than one can be
outstanding (`c3_counterexample`); firing a pending timer removes it from
the pending set and, when `AutoReconnect` still holds and no attempt is
live, initiates a new connect attempt (a fresh socket — a fresh
generation — becomes current). -/
theorem c3_timer_schedule_and_fire :
    (∀ (w : World) (sid code : Nat),
      (w.sockets sid = some ReadyState.CONNECTING ∨ w.sockets sid = some ReadyState.OPEN ∨
        w.sockets sid = some ReadyState.CLOSING) →
      w.autoConnect = true → code ≠ 1000 →
      (step w (Event.transportClose sid code)).pending = w.pending ++ [w.nextTimer] ∧
      (step w (Event.transportClose sid code)).timerRef = some w.nextTimer ∧
      (step w (Event.transportClose sid code)).nextTimer = w.nextTimer + 1) ∧
    (∀ (w : World) (t : Nat), t ∈ w.pending → w.autoConnect = true → isLive w = false →
      (step w (Event.timerFire t)).pending = w.pending.erase t ∧
      (step w (Event.timerFire t)).nextSock = w.nextSock + 1 ∧
      (step w (Event.timerFire t)).wsRef = some w.nextSock) := by
  constructor
  · intro w sid code hlive hauto hcode
    simp only [step]
    rcases hlive with hs | hs | hs <;> simp only [hs] <;>
      exact onclose_schedules _ hauto hcode
  · intro w t ht hauto hnl
    simp only [step]
    rw [if_pos ht]
    simp only [fireTimer]
    rw [if_pos (show ({ w with pending := w.pending.erase t } : World).autoConnect = true
      from hauto)]
    have hl : isLive ({ w with pending := w.pending.erase t } : World) = false := by
      simpa using hnl
    obtain ⟨h1, h2⟩ := connect_creates _ hl
    exact ⟨by simp, h1, h2⟩

/-- C3 witness: in the world with stale CLOSING socket 0, current socket 1
CLOSED, `AutoReconnect` on and timer 0 pending, an abnormal close of
socket 0 appends exactly timer 1, and firing timer 0 removes it and
creates socket 2. -/
theorem c3_witness :
    ((run init [Event.probeOk, Event.authChanged AuthSignal.loggedOut,
        Event.authChanged AuthSignal.loggedIn, Event.transportClose 1 1006]).sockets 0
        = some ReadyState.CONNECTING ∨
      (run init [Event.probeOk, Event.authChanged AuthSignal.loggedOut,
        Event.authChanged AuthSignal.loggedIn, Event.transportClose 1 1006]).sockets 0
        = some ReadyState.OPEN ∨
      (run init [Event.probeOk, Event.authChanged AuthSignal.loggedOut,
        Event.authChanged AuthSignal.loggedIn, Event.transportClose 1 1006]).sockets 0
        = some ReadyState.CLOSING) ∧
    (step (run init [Event.probeOk, Event.authChanged AuthSignal.loggedOut,
        Event.authChanged AuthSignal.loggedIn, Event.transportClose 1 1006])
        (Event.transportClose 0 1006)).pending
      = (run init [Event.probeOk, Event.authChanged AuthSignal.loggedOut,
          Event.authChanged AuthSignal.loggedIn, Event.transportClose 1 1006]).pending
        ++ [(run init [Event.probeOk, Event.authChanged AuthSignal.loggedOut,
          Event.authChanged AuthSignal.loggedIn, Event.transportClose 1 1006]).nextTimer] ∧
    (step (run init [Event.probeOk, Event.authChanged AuthSignal.loggedOut,
        Event.authChanged AuthSignal.loggedIn, Event.transportClose 1 1006])
        (Event.timerFire 0)).nextSock
      = (run init [Event.probeOk, Event.authChanged AuthSignal.loggedOut,
          Event.authChanged AuthSignal.loggedIn, Event.transportClose 1 1006]).nextSock + 1 := by
  refine ⟨Or.inr (Or.inr (by decide)), ?_, ?_⟩
  · exact ((c3_timer_schedule_and_fire.1 (run init [Event.probeOk,
      Event.authChanged AuthSignal.loggedOut, Event.authChanged AuthSignal.loggedIn,
      Event.transportClose 1 1006]) 0 1006 (Or.inr (Or.inr (by decide))) (by decide)
      (by decide))).1
  · exact ((c3_timer_schedule_and_fire.2 (run init [Event.probeOk,
      Event.authChanged AuthSignal.loggedOut, Event.authChanged AuthSignal.loggedIn,
      Event.transportClose 1 1006]) 0 (by decide) (by decide) (by decide))).2.1

/-- C6 counterexample: (a) an `auth:changed` event whose detail carries no
recognized status hits the fallback `else { connect() }` branch and
creates a socket while the auth status is still Unknown (never probed);
(b) a failed auth probe is not treated *exactly* as a `LoggedOut` event:
the `logged_out` handler appends a log line and runs `disconnect()`,
while the probe-failure branch only clears `autoConnect` and logs
nothing. -/
theorem c6_counterexample :
    (run init [Event.authChanged AuthSignal.other]).nextSock = 1 ∧
    (run init [Event.authChanged AuthSignal.other]).authStatus = AuthState.unknown ∧
    (run init [Event.probeFail]).logs = [] ∧
    (run init [Event.authChanged AuthSignal.loggedOut]).logs ≠ [] := by
  decide

/-- C6 amended: excluding the unrecognized-status fallback branch, every
step that initiates a connect attempt (creates a socket, observed as a
change of `nextSock`) ends with the observed auth status `LoggedIn` — the
probe-success and `logged_in` handlers record the positive status
themselves, and the timer-fire and visibility paths are guarded by
`AutoReconnect`, which implies a positive status (`authInv_run`); and an
auth-probe failure is fail-closed *like* `LoggedOut` in that it clears
`AutoReconnect` and records a logged-out status, though it initiates no
disconnect and appends no log. -/
theorem c6_no_connect_while_unknown :
    (∀ (evs : List Event) (e : Event), e ≠ Event.authChanged AuthSignal.other →
      (step (run init evs) e).nextSock ≠ (run init evs).nextSock →
      (step (run init evs) e).authStatus = AuthState.loggedIn) ∧
    (∀ w : World, w.probed = false →
      (step w Event.probeFail).autoConnect = false ∧
      (step w Event.probeFail).authStatus = AuthState.loggedOut ∧
      (step w Event.probeFail).nextSock = w.nextSock ∧
      (step w Event.probeFail).logs = w.logs) := by
  constructor
  · intro evs e hne hcreate
    have hInv : AuthInv (run init evs) := authInv_run evs
    revert hcreate
    generalize run init evs = w at hInv
    intro hcreate
    cases e with
    | probeOk =>
      by_cases hp : w.probed = true
      · rw [show step w Event.probeOk = w from by simp [step, hp]]
        exact absurd rfl (by rwa [show step w Event.probeOk = w from by simp [step, hp]]
          at hcreate)
      · rw [show step w Event.probeOk = checkAuthOk w from by simp [step, hp]]
        simp
    | probeFail =>
      exact absurd (by simp only [step]; split <;> rfl) hcreate
    | transportOpen sid =>
      exact absurd (by simp only [step]; split <;> simp) hcreate
    | transportMessage sid data =>
      exact absurd (by simp only [step]; split <;> simp [onmessage]) hcreate
    | transportError sid =>
      exact absurd (by simp only [step]; split <;> simp [onerror]) hcreate
    | transportClose sid code =>
      exact absurd (by simp only [step]; split <;> simp) hcreate
    | authChanged sig =>
      cases sig with
      | loggedIn => simp [step]
      | loggedOut => exact absurd (by simp [step]) hcreate
      | other => exact absurd rfl hne
    | visibilityRegained =>
      simp only [step, handleVisibilityChange] at hcreate ⊢
      by_cases hc : w.connected = false ∧ w.autoConnect = true
      · rw [if_pos hc]
        simpa using hInv hc.2
      · rw [if_neg hc] at hcreate
        exact absurd rfl hcreate
    | timerFire t =>
      simp only [step] at hcreate ⊢
      by_cases htp : t ∈ w.pending
      · rw [if_pos htp] at hcreate ⊢
        simp only [fireTimer] at hcreate ⊢
        by_cases ha : ({ w with pending := w.pending.erase t } : World).autoConnect = true
        · rw [if_pos ha]
          simpa using hInv (by simpa using ha)
        · rw [if_neg ha] at hcreate
          exact absurd rfl hcreate
      · rw [if_neg htp] at hcreate
        exact absurd rfl hcreate
    | send m =>
      exact absurd (by simp [step]) hcreate
    | tick =>
      exact absurd rfl hcreate
  · intro w hp
    have hstep : step w Event.probeFail = checkAuthFail w := by
      simp [step, hp]
    rw [hstep]
    exact ⟨rfl, rfl, rfl, rfl⟩

/-- C6 witness: a `logged_in` auth event at mount creates socket 0 while
the status observed is LoggedIn, and a probe failure from the initial
state clears `AutoReconnect` without logging. -/
theorem c6_witness :
    (Event.authChanged AuthSignal.loggedIn ≠ Event.authChanged AuthSignal.other ∧
      (step (run init []) (Event.authChanged AuthSignal.loggedIn)).nextSock
        ≠ (run init []).nextSock ∧
      (step (run init []) (Event.authChanged AuthSignal.loggedIn)).authStatus
        = AuthState.loggedIn) ∧
    (init.probed = false ∧
      (step init Event.probeFail).autoConnect = false ∧
      (step init Event.probeFail).authStatus = AuthState.loggedOut ∧
      (step init Event.probeFail).nextSock = init.nextSock ∧
      (step init Event.probeFail).logs = init.logs) := by
  constructor
  · exact ⟨by decide, by decide,
      c6_no_connect_while_unknown.1 [] (Event.authChanged AuthSignal.loggedIn)
        (by decide) (by decide)⟩
  · exact ⟨by decide, c6_no_connect_while_unknown.2 init (by decide)⟩

/-- C1 witness: in the superseded-socket world of `c1trace` (current
generation 1), instantiating the stale-callback theorem at socket 0. -/
theorem c1_witness :
    (run init [Event.probeOk, Event.authChanged AuthSignal.loggedOut,
        Event.authChanged AuthSignal.loggedIn]).wsRef ≠ some 0 ∧
    (step (run init [Event.probeOk, Event.authChanged AuthSignal.loggedOut,
        Event.authChanged AuthSignal.loggedIn]) (Event.transportClose 0 1006)).autoConnect
      = (run init [Event.probeOk, Event.authChanged AuthSignal.loggedOut,
          Event.authChanged AuthSignal.loggedIn]).autoConnect ∧
    (step (run init [Event.probeOk, Event.authChanged AuthSignal.loggedOut,
        Event.authChanged AuthSignal.loggedIn]) (Event.transportMessage 0 "x")).connected
      = (run init [Event.probeOk, Event.authChanged AuthSignal.loggedOut,
          Event.authChanged AuthSignal.loggedIn]).connected := by
  refine ⟨by decide, ?_, ?_⟩
  · exact ((c1_stale_callbacks (run init [Event.probeOk, Event.authChanged AuthSignal.loggedOut,
      Event.authChanged AuthSignal.loggedIn]) 0 1006 "x" (by decide)).1).2.1
  · exact ((c1_stale_callbacks (run init [Event.probeOk, Event.authChanged AuthSignal.loggedOut,
      Event.authChanged AuthSignal.loggedIn]) 0 1006 "x" (by decide)).2).1.1

/-- C8: the log buffer is append-only: `addLog(line)` stamps the line
with the current wall clock and appends it at the tail; along every
execution the buffer of any earlier point is a prefix of the buffer of
any later point (no entry is ever removed, reordered or mutated); and the
timestamps are always in non-decreasing order. -/
theorem c8_logbuffer_append_only :
    (∀ (w : World) (line : String),
      addLog line w = { w with logs := w.logs ++ [logAt w.clock line] }) ∧
    (∀ evs evs' : List Event, ∃ δ : List LogEntry,
      (run init (evs ++ evs')).logs = (run init evs).logs ++ δ) ∧
    (∀ evs : List Event,
      (run init evs).logs.Pairwise (fun a b => a.timestamp ≤ b.timestamp)) := by
  refine ⟨fun w line => rfl, ?_, fun evs => (logsInv_run evs).1⟩
  intro evs evs'
  have hsplit : run init (evs ++ evs') = run (run init evs) evs' := by
    unfold run
    rw [List.foldl_append]
  rw [hsplit]
  exact run_logs_append (run init evs) evs'

/-- The auth tracker is the set of `auth:changed` dispatch sites of the
repository together with the auth state they have observed.  Each
constructor mirrors one site, and each site dispatches unconditionally:
`login()` in `Login.tsx` dispatches `logged_in` on every `res.ok`,
`logout()` dispatches `logged_out` on success, and the `res.ok` branch of
`checkAuthAndConnect` in `part_005` dispatches a synthetic `logged_in`
(`source: 'mount_check'`) on every successful mount probe — none of them
compares with the previously observed state before dispatching. -/
structure AuthTracker where
  observed : AuthState
  emitted : List AuthSignal
  deriving DecidableEq, Repr

/-- The tracker before any probe or login completes. -/
def trackerInit : AuthTracker :=
  { observed := AuthState.unknown, emitted := [] }

/-- `Login.tsx` `login()`, `res.ok` branch: the user is now logged in and
`auth:changed {status:'logged_in'}` is dispatched unconditionally. -/
def loginSuccess (tr : AuthTracker) : AuthTracker :=
  { observed := AuthState.loggedIn, emitted := tr.emitted ++ [AuthSignal.loggedIn] }

/-- `Login.tsx` `logout()`, success branch: dispatches
`auth:changed {status:'logged_out'}` unconditionally. -/
def logoutSuccess (tr : AuthTracker) : AuthTracker :=
  { observed := AuthState.loggedOut, emitted := tr.emitted ++ [AuthSignal.loggedOut] }

/-- `checkAuthAndConnect` in `part_005`, `res.ok` branch: dispatches the
synthetic `auth:changed {status:'logged_in', source:'mount_check'}` on
every successful mount probe, whether or not the observed state changed. -/
def mountCheckOk (tr : AuthTracker) : AuthTracker :=
  { observed := AuthState.loggedIn, emitted := tr.emitted ++ [AuthSignal.loggedIn] }

/-- C9: evaluation of the tracker at the failing input.  A successful
mount probe (the user was already authenticated) emits `logged_in`; a
subsequent successful login emits `logged_in` again although the observed
state was `LoggedIn` before and after — a duplicate emission for an
unchanged state, which the claim forbids.  The source emits per *action*,
never comparing with the previous state. -/
theorem c9_duplicate_emission :
    (mountCheckOk trackerInit).observed = AuthState.loggedIn ∧
    (loginSuccess (mountCheckOk trackerInit)).observed = AuthState.loggedIn ∧
    (loginSuccess (mountCheckOk trackerInit)).emitted
      = [AuthSignal.loggedIn, AuthSignal.loggedIn] := by
  exact ⟨rfl, rfl, rfl⟩

/-- C10: `connect` while the current transport is OPEN or CONNECTING is a
no-op: it returns the state unchanged (no new transport, no state change,
no log entry), so a `logged_in` `auth:changed` event or a visibility-regain
arriving while already connecting or open never creates a second socket
(`nextSock`, the count of sockets ever created, is unchanged). -/
theorem c10_connect_idempotent_while_live (w : World) (h : isLive w = true) :
    connect w = w ∧
    (step w (Event.authChanged AuthSignal.loggedIn)).nextSock = w.nextSock ∧
    (step w Event.visibilityRegained).nextSock = w.nextSock := by
  refine ⟨connect_of_isLive w h, ?_, ?_⟩
  · show (handleAuthChanged AuthSignal.loggedIn w).nextSock = w.nextSock
    unfold handleAuthChanged
    rw [connect_of_isLive _ (by exact h)]
    rfl
  · show (handleVisibilityChange w).nextSock = w.nextSock
    unfold handleVisibilityChange
    split
    · rw [connect_of_isLive _ (by exact h)]
      rfl
    · rfl

/-- C10 witness: right after a successful mount probe the socket is
CONNECTING, and a repeated `connect` / `logged_in` / visibility event
creates no second socket. -/
theorem c10_witness :
    isLive (run init [Event.probeOk]) = true ∧
    connect (run init [Event.probeOk]) = run init [Event.probeOk] ∧
    (step (run init [Event.probeOk]) (Event.authChanged AuthSignal.loggedIn)).nextSock
      = (run init [Event.probeOk]).nextSock ∧
    (step (run init [Event.probeOk]) Event.visibilityRegained).nextSock
      = (run init [Event.probeOk]).nextSock := by
  refine ⟨by decide, ?_⟩
  have h := c10_connect_idempotent_while_live (run init [Event.probeOk]) (by decide)
  exact h

end AeWS
